import Mathlib

/-!
# Verification of `pandas_questions.py`

A shallow embedding of the referendum-map pipeline: DataFrames are lists of
typed rows, cells that may hold either a CSV-parsed number or a string are a
`PyVal`, nullable cells are `Option`s.  Each Python function becomes a Lean
function; the two functions that assign into their argument DataFrames are
modelled by returning the post-call state of those arguments alongside the
result.
-/

set_option autoImplicit false

namespace PandasQuestions

/-- A scalar cell as `read_csv` may produce it: either a string or an
integer (department/region codes are non-negative, so `Nat` suffices). -/
inductive PyVal where
  | pstr (s : String)
  | pint (n : Nat)
deriving DecidableEq

/-- `astype(str)` on a single cell: a string stays itself, a number is
rendered in decimal. -/
def pyStr : PyVal → String
  | .pstr s => s
  | .pint n => toString n

/-- Python `str.zfill(w)`: pad on the left with the character 0 up to width
`w` (our codes are unsigned, so no sign handling is needed). -/
def zfill (w : Nat) (s : String) : String :=
  if w ≤ s.length then s else String.mk (List.replicate (w - s.length) '0') ++ s

/-- A row of `regions.csv`: columns `code`, `name`. -/
structure RegionRow where
  code : PyVal
  name : String
deriving DecidableEq

/-- A row of `departments.csv`: columns `code`, `name`, `region_code`. -/
structure DepartmentRow where
  code : PyVal
  name : String
  region_code : PyVal
deriving DecidableEq

/-- A row of the Area Resolver's output after the final column selection
`merged[['code_reg', 'name_reg', 'code_dep', 'name_dep']]`.  The region
fields are nullable (NaN on a failed left join); `code_dep` is a string
because the source runs `astype(str).str.zfill(2)` on it before merging. -/
structure AreaRow where
  code_reg : Option PyVal
  name_reg : Option String
  code_dep : String
  name_dep : String
deriving DecidableEq

/-- The column selection on line 59 of the source:
`merged[['code_reg', 'name_reg', 'code_dep', 'name_dep']]`. -/
def area_selected_columns : List String :=
  ["code_reg", "name_reg", "code_dep", "name_dep"]

/-- `departments['code_dep'].astype(str).str.zfill(2)` on one cell. -/
def normalizeDepCode (v : PyVal) : String := zfill 2 (pyStr v)

/-- One department row's contribution to
`departments.merge(regions, left_on='region_code', right_on='code_reg',
how='left')`: one output row per region row whose `code_reg` equals the
department's `region_code` (no normalization is applied to either join
key), or a single row with null region fields when no region matches. -/
def leftJoinDept (regions : List RegionRow) (d : DepartmentRow) : List AreaRow :=
  match regions.filter (fun r => decide (r.code = d.region_code)) with
  | [] => [{ code_reg := none, name_reg := none,
             code_dep := normalizeDepCode d.code, name_dep := d.name }]
  | ms => ms.map (fun r => { code_reg := some r.code, name_reg := some r.name,
                             code_dep := normalizeDepCode d.code, name_dep := d.name })

/-- Post-call state of `merge_regions_and_departments`: the Python function
rebinds its parameters to `rename` copies before the in-place `zfill`
assignment, so the caller's two DataFrames are returned unchanged. -/
structure ResolverCall where
  regions_after : List RegionRow
  departments_after : List DepartmentRow
  merged : List AreaRow
deriving DecidableEq

/-- `merge_regions_and_departments(regions, departments)`: rename the
colliding `code`/`name` columns, zero-fill `code_dep`, left-join the
departments onto the regions on the raw `region_code`/`code_reg` keys,
and keep the four columns of `area_selected_columns`. -/
def merge_regions_and_departments (regions : List RegionRow)
    (departments : List DepartmentRow) : ResolverCall :=
  { regions_after := regions
    departments_after := departments
    merged := departments.flatMap (leftJoinDept regions) }

/-- A row of `referendum.csv`; the vote counts are non-negative integers
and the department code may have been parsed as a number. -/
structure BallotRow where
  dep_code : PyVal
  registered : Nat
  abstentions : Nat
  null_votes : Nat
  choice_a : Nat
  choice_b : Nat
deriving DecidableEq

/-- `referendum['Department code'] = referendum['Department code']
.astype(str).str.zfill(2)` on one row (an in-place column assignment). -/
def normalizeBallot (b : BallotRow) : BallotRow :=
  { b with dep_code := .pstr (zfill 2 (pyStr b.dep_code)) }

/-- `regions_and_departments['code_dep'] = ... .astype(str).str.zfill(2)`
on one row (`code_dep` is already a string, so `astype(str)` is the
identity on it). -/
def normalizeArea (a : AreaRow) : AreaRow :=
  { a with code_dep := zfill 2 a.code_dep }

/-- A row of the Ballot Joiner's output: all ballot columns plus all four
area columns. -/
structure MergedRow where
  ballot : BallotRow
  area : AreaRow
deriving DecidableEq

/-- The `dropna()` row predicate: in this model the only nullable columns
are the two region fields produced by the resolver's left join, so a row is
kept exactly when both are populated. -/
def dropnaKeep (m : MergedRow) : Bool :=
  m.area.code_reg.isSome && m.area.name_reg.isSome

/-- Post-call state of `merge_referendum_and_areas`: the Python function
assigns into both argument DataFrames before merging, so both come back
with their code columns normalized. -/
structure JoinerCall where
  referendum_after : List BallotRow
  areas_after : List AreaRow
  merged : List MergedRow
deriving DecidableEq

/-- `merge_referendum_and_areas(referendum, regions_and_departments)`:
normalize both code columns in place, inner-join the ballots with the area
rows on the normalized codes, then `dropna()`. -/
def merge_referendum_and_areas (referendum : List BallotRow)
    (areas : List AreaRow) : JoinerCall :=
  let referendum' := referendum.map normalizeBallot
  let areas' := areas.map normalizeArea
  let joined := referendum'.flatMap (fun b =>
    (areas'.filter (fun a => decide (a.code_dep = pyStr b.dep_code))).map
      (fun a => { ballot := b, area := a }))
  { referendum_after := referendum'
    areas_after := areas'
    merged := joined.filter dropnaKeep }

/-- The ballot rows whose normalized department code occurs among the
normalized `code_dep` values of the area table: the rows the inner join can
match. -/
def matchableBallots (referendum' : List BallotRow) (areas' : List AreaRow) :
    List BallotRow :=
  referendum'.filter (fun b => decide (pyStr b.dep_code ∈ areas'.map (fun a => a.code_dep)))

/-- The `groupby(['code_reg', 'name_reg'])` key of a joined row; pandas
silently drops rows whose group keys are null, hence the `Option`. -/
def keyOf (m : MergedRow) : Option (PyVal × String) :=
  match m.area.code_reg, m.area.name_reg with
  | some c, some n => some (c, n)
  | _, _ => none

/-- The rows of one `groupby` group. -/
def groupRows (rows : List MergedRow) (k : PyVal × String) : List MergedRow :=
  rows.filter (fun m => decide (keyOf m = some k))

/-- A row of the Regional Aggregator's output, indexed by `code_reg`
(`set_index('code_reg')`). -/
structure ResultRow where
  code_reg : PyVal
  name_reg : String
  registered : Nat
  abstentions : Nat
  null_votes : Nat
  choice_a : Nat
  choice_b : Nat
deriving DecidableEq

/-- The column selection on lines 107-109 of the source. -/
def result_columns : List String :=
  ["name_reg", "Registered", "Abstentions", "Null", "Choice A", "Choice B"]

/-- Sum of one numeric field over a list of joined rows. -/
def sumBy (rows : List MergedRow) (f : MergedRow → Nat) : Nat :=
  (rows.map f).sum

/-- `compute_referendum_result_by_regions(referendum_and_areas)`: group by
the `(code_reg, name_reg)` pair and sum the five numeric columns per group.
Each distinct non-null key yields exactly one output row (pandas
additionally sorts the groups by key; no property below depends on the row
order, so the groups are enumerated by `dedup` here). -/
def compute_referendum_result_by_regions (rows : List MergedRow) :
    List ResultRow :=
  ((rows.filterMap keyOf).dedup).map (fun k =>
    let g := groupRows rows k
    { code_reg := k.1
      name_reg := k.2
      registered := sumBy g (fun m => m.ballot.registered)
      abstentions := sumBy g (fun m => m.ballot.abstentions)
      null_votes := sumBy g (fun m => m.ballot.null_votes)
      choice_a := sumBy g (fun m => m.ballot.choice_a)
      choice_b := sumBy g (fun m => m.ballot.choice_b) })

/-- A row of `regions.geojson`: the `nom` attribute plus an opaque
geometry payload. -/
structure GeoRow where
  nom : String
  geometry : String
deriving DecidableEq

/-- A row of the GeoDataFrame returned by `plot_referendum_map`: the
geometry columns, the (nullable, because left-joined) result columns, and
the computed `ratio` column.  The `code_reg` index of the result table is
discarded by the column-keyed `merge`. -/
structure PlotRow where
  nom : String
  geometry : String
  name_reg : Option String
  registered : Option Nat
  abstentions : Option Nat
  null_votes : Option Nat
  choice_a : Option Nat
  choice_b : Option Nat
  ratio : Option ℚ
deriving DecidableEq

/-- `gdf_merged['ratio'] = choice_a / (choice_a + choice_b)` on one row,
with IEEE semantics over the values that actually occur: a null (NaN)
operand propagates, the counts are non-negative so the denominator is zero
exactly when both counts are zero, and `0.0 / 0.0` is NaN. -/
def ratioOpt : Option Nat → Option Nat → Option ℚ
  | some a, some b => if a + b = 0 then none else some ((a : ℚ) / ((a : ℚ) + (b : ℚ)))
  | _, _ => none

/-- One output row of the renderer's left join, with its `ratio` cell. -/
def plotRowOf (g : GeoRow) (res : Option ResultRow) : PlotRow :=
  match res with
  | some r =>
    { nom := g.nom, geometry := g.geometry, name_reg := some r.name_reg
      registered := some r.registered, abstentions := some r.abstentions
      null_votes := some r.null_votes, choice_a := some r.choice_a
      choice_b := some r.choice_b
      ratio := ratioOpt (some r.choice_a) (some r.choice_b) }
  | none =>
    { nom := g.nom, geometry := g.geometry, name_reg := none
      registered := none, abstentions := none, null_votes := none
      choice_a := none, choice_b := none, ratio := ratioOpt none none }

/-- One geometry row's contribution to `gdf.merge(results, left_on='nom',
right_on='name_reg', how='left')` followed by the `ratio` column: one
output row per result row whose `name_reg` equals the geometry's `nom`, or
a single null-filled row when no result matches. -/
def leftJoinGeo (results : List ResultRow) (g : GeoRow) : List PlotRow :=
  match results.filter (fun r => decide (r.name_reg = g.nom)) with
  | [] => [plotRowOf g none]
  | ms => ms.map (fun r => plotRowOf g (some r))

/-- `plot_referendum_map(referendum_result_by_regions)` restricted to its
testable artifact: the left join of the geometries with the result table
plus the computed `ratio` column.  The drawing side effect is out of
scope; the returned table is modelled. -/
def plot_referendum_map (geo : List GeoRow) (results : List ResultRow) :
    List PlotRow :=
  geo.flatMap (leftJoinGeo results)

/-! ## Concrete test tables

A small synthetic instance of the pipeline (two regions, three
departments, five ballot rows of which four match a department), used by
the witnesses below. -/

def exRegions : List RegionRow :=
  [{ code := .pstr "84", name := "ARA" }, { code := .pstr "32", name := "HDF" }]

def exDepartments : List DepartmentRow :=
  [{ code := .pstr "01", name := "Ain", region_code := .pstr "84" },
   { code := .pstr "02", name := "Aisne", region_code := .pstr "32" },
   { code := .pstr "59", name := "Nord", region_code := .pstr "32" }]

def exAreas : List AreaRow :=
  (merge_regions_and_departments exRegions exDepartments).merged

def exBallots : List BallotRow :=
  [{ dep_code := .pstr "01", registered := 10, abstentions := 1, null_votes := 1,
     choice_a := 4, choice_b := 4 },
   { dep_code := .pstr "1", registered := 20, abstentions := 2, null_votes := 2,
     choice_a := 8, choice_b := 8 },
   { dep_code := .pstr "02", registered := 30, abstentions := 3, null_votes := 3,
     choice_a := 12, choice_b := 12 },
   { dep_code := .pstr "59", registered := 40, abstentions := 4, null_votes := 4,
     choice_a := 16, choice_b := 16 },
   { dep_code := .pstr "ZZ", registered := 50, abstentions := 5, null_votes := 5,
     choice_a := 20, choice_b := 20 }]

def exResolved : List MergedRow :=
  (merge_referendum_and_areas exBallots exAreas).merged

def exResults : List ResultRow :=
  compute_referendum_result_by_regions exResolved

def exGeo : List GeoRow :=
  [{ nom := "ARA", geometry := "polyA" }, { nom := "Corse", geometry := "polyB" }]

def exGeoC4 : List GeoRow := [{ nom := "ARA", geometry := "poly" }]

def exResultsC4 : List ResultRow :=
  [{ code_reg := .pstr "84", name_reg := "ARA", registered := 1000, abstentions := 10,
     null_votes := 5, choice_a := 100, choice_b := 300 }]

/-! ## Helper lemmas -/

/-- A filter by equality of a key projection retains at most one element
when the projected keys are duplicate-free. -/
theorem filter_key_length_le_one {α β : Type} [DecidableEq β] (f : α → β) (b : β)
    (l : List α) (h : (l.map f).Nodup) :
    (l.filter (fun a => decide (f a = b))).length ≤ 1 := by
  induction l with
  | nil => simp
  | cons a l ih =>
    simp only [List.map_cons, List.nodup_cons] at h
    obtain ⟨hna, hnd⟩ := h
    by_cases hab : f a = b
    · have hnil : l.filter (fun a => decide (f a = b)) = [] := by
        refine List.filter_eq_nil_iff.mpr ?_
        intro x hx
        simp only [decide_eq_true_eq]
        intro hxb
        exact hna (hxb.trans hab.symm ▸ List.mem_map_of_mem f hx)
      simp [List.filter_cons, hab, hnil]
    · simpa [List.filter_cons, hab] using ih hnd

/-- A `flatMap` whose pieces all have one element preserves the length. -/
theorem length_flatMap_of_one {α β : Type} (l : List α) (f : α → List β)
    (h : ∀ a ∈ l, (f a).length = 1) : (l.flatMap f).length = l.length := by
  induction l with
  | nil => simp
  | cons a l ih =>
    simp only [List.flatMap_cons, List.length_append, List.length_cons]
    rw [h a (List.mem_cons_self a l), ih (fun x hx => h x (List.mem_cons_of_mem a hx))]
    omega

/-- With duplicate-free region codes, each department row contributes
exactly one row to the resolver's left join. -/
theorem leftJoinDept_length (regions : List RegionRow) (d : DepartmentRow)
    (h : (regions.map RegionRow.code).Nodup) :
    (leftJoinDept regions d).length = 1 := by
  have hle := filter_key_length_le_one RegionRow.code d.region_code regions h
  unfold leftJoinDept
  split
  · rfl
  · rename_i heq
    rw [List.length_map]
    have h0 : (regions.filter (fun r => decide (r.code = d.region_code))).length ≠ 0 :=
      fun h0 => heq (List.length_eq_zero.mp h0)
    omega

/-- The unmatched case of the resolver's left join. -/
theorem leftJoinDept_of_no_match (regions : List RegionRow) (d : DepartmentRow)
    (h : ∀ r ∈ regions, r.code ≠ d.region_code) :
    leftJoinDept regions d =
      [{ code_reg := none, name_reg := none,
         code_dep := normalizeDepCode d.code, name_dep := d.name }] := by
  have hnil : regions.filter (fun r => decide (r.code = d.region_code)) = [] :=
    List.filter_eq_nil_iff.mpr (fun r hr => by simpa using h r hr)
  unfold leftJoinDept
  split
  · rfl
  · rename_i heq
    exact absurd hnil heq

/-- The matched case of the resolver's left join. -/
theorem leftJoinDept_of_match (regions : List RegionRow) (d : DepartmentRow)
    (r : RegionRow) (hr : r ∈ regions) (hcode : r.code = d.region_code) :
    ({ code_reg := some r.code, name_reg := some r.name,
       code_dep := normalizeDepCode d.code, name_dep := d.name } : AreaRow)
      ∈ leftJoinDept regions d := by
  have hmem : r ∈ regions.filter (fun r => decide (r.code = d.region_code)) :=
    List.mem_filter.mpr ⟨hr, by simpa using hcode⟩
  unfold leftJoinDept
  split
  · rename_i heq
    rw [heq] at hmem
    exact absurd hmem (by simp)
  · exact List.mem_map_of_mem _ hmem

/-- Every row of the resolver's left join carries the zero-filled
department code and the department name of the row that produced it. -/
theorem mem_leftJoinDept_fields (regions : List RegionRow) (d : DepartmentRow)
    (row : AreaRow) (h : row ∈ leftJoinDept regions d) :
    row.code_dep = normalizeDepCode d.code ∧ row.name_dep = d.name := by
  unfold leftJoinDept at h
  split at h
  · rw [List.mem_singleton] at h
    subst h
    exact ⟨rfl, rfl⟩
  · obtain ⟨r, _, hrow⟩ := List.mem_map.mp h
    subst hrow
    exact ⟨rfl, rfl⟩

/-- Membership in the resolver's output comes from some department row. -/
theorem mem_resolver_merged (regions : List RegionRow)
    (departments : List DepartmentRow) (row : AreaRow)
    (h : row ∈ (merge_regions_and_departments regions departments).merged) :
    ∃ d ∈ departments, row ∈ leftJoinDept regions d := by
  simpa [merge_regions_and_departments] using List.mem_flatMap.mp h

/-- When the normalized `code_dep` values of the area table are
duplicate-free, the inner join of the Ballot Joiner produces at most one
row per matchable ballot row. -/
theorem joiner_joined_length_le (referendum' : List BallotRow) (areas' : List AreaRow)
    (h1 : (areas'.map AreaRow.code_dep).Nodup) :
    (referendum'.flatMap (fun b =>
      (areas'.filter (fun a => decide (a.code_dep = pyStr b.dep_code))).map
        (fun a => ({ ballot := b, area := a } : MergedRow)))).length
      ≤ (matchableBallots referendum' areas').length := by
  induction referendum' with
  | nil => simp [matchableBallots]
  | cons b bs ih =>
    rw [List.flatMap_cons, List.length_append, List.length_map]
    unfold matchableBallots at ih ⊢
    rw [List.filter_cons]
    by_cases hc : pyStr b.dep_code ∈ areas'.map (fun a => a.code_dep)
    · rw [if_pos (by simpa using hc), List.length_cons]
      have ht : (areas'.filter (fun a => decide (a.code_dep = pyStr b.dep_code))).length ≤ 1 :=
        filter_key_length_le_one AreaRow.code_dep (pyStr b.dep_code) areas' h1
      omega
    · rw [if_neg (by simpa using hc)]
      have ht : areas'.filter (fun a => decide (a.code_dep = pyStr b.dep_code)) = [] := by
        refine List.filter_eq_nil_iff.mpr ?_
        intro a ha
        simp only [decide_eq_true_eq]
        intro hab
        exact hc (hab ▸ List.mem_map.mpr ⟨a, ha, rfl⟩)
      rw [ht]
      simpa using ih

/-- Every row returned by the renderer's left join is either a null-filled
row for an unmatched geometry or the enrichment of a geometry row with a
matching result row. -/
theorem mem_plot_cases (geo : List GeoRow) (results : List ResultRow) (row : PlotRow)
    (h : row ∈ plot_referendum_map geo results) :
    ∃ g ∈ geo, row = plotRowOf g none ∨ ∃ r ∈ results, row = plotRowOf g (some r) := by
  obtain ⟨g, hg, hrow⟩ := List.mem_flatMap.mp h
  refine ⟨g, hg, ?_⟩
  unfold leftJoinGeo at hrow
  revert hrow
  split
  · intro hrow
    exact Or.inl (List.mem_singleton.mp hrow)
  · intro hrow
    obtain ⟨r, hr, hrow⟩ := List.mem_map.mp hrow
    exact Or.inr ⟨r, List.mem_of_mem_filter hr, hrow.symm⟩

/-- With duplicate-free result names, each geometry row contributes exactly
one row to the renderer's left join. -/
theorem plotJoin_length (results : List ResultRow) (g : GeoRow)
    (h : (results.map ResultRow.name_reg).Nodup) :
    (leftJoinGeo results g).length = 1 := by
  have hle := filter_key_length_le_one ResultRow.name_reg g.nom results h
  unfold leftJoinGeo
  split
  · rfl
  · rename_i heq
    rw [List.length_map]
    have h0 : (results.filter (fun r => decide (r.name_reg = g.nom))).length ≠ 0 :=
      fun h0 => heq (List.length_eq_zero.mp h0)
    omega

/-- The fields of a joined row extracted from `keyOf`. -/
theorem keyOf_fields (m : MergedRow) (p : PyVal × String) (h : keyOf m = some p) :
    m.area.code_reg = some p.1 ∧ m.area.name_reg = some p.2 := by
  cases hc : m.area.code_reg with
  | none => simp [keyOf, hc] at h
  | some c =>
    cases hn : m.area.name_reg with
    | none => simp [keyOf, hc, hn] at h
    | some n =>
      simp only [keyOf, hc, hn] at h
      obtain rfl := Option.some.inj h
      exact ⟨rfl, rfl⟩

/-! ## Claim theorems -/

/-- C1: for every region table whose `code` values are duplicate-free and
every department table, `merge_regions_and_departments` returns a table with
exactly as many rows as the department table — the left-outer join enriches
columns but never filters or duplicates department rows. -/
theorem C1_resolver_preserves_rows (regions : List RegionRow)
    (departments : List DepartmentRow)
    (h : (regions.map RegionRow.code).Nodup) :
    (merge_regions_and_departments regions departments).merged.length
      = departments.length := by
  unfold merge_regions_and_departments
  exact length_flatMap_of_one departments (leftJoinDept regions)
    (fun d _ => leftJoinDept_length regions d h)

/-- Witness for C1 at a two-region, three-department instance (one
department with an unmatched region code). -/
theorem C1_resolver_preserves_rows_witness :
    (([{ code := .pstr "84", name := "ARA" }, { code := .pstr "32", name := "HDF" }]
        : List RegionRow).map RegionRow.code).Nodup
  ∧ (merge_regions_and_departments
      [{ code := .pstr "84", name := "ARA" }, { code := .pstr "32", name := "HDF" }]
      [{ code := .pstr "01", name := "Ain", region_code := .pstr "84" },
       { code := .pstr "02", name := "Aisne", region_code := .pstr "32" },
       { code := .pstr "976", name := "Mayotte", region_code := .pstr "06" }]).merged.length
    = ([{ code := .pstr "01", name := "Ain", region_code := .pstr "84" },
        { code := .pstr "02", name := "Aisne", region_code := .pstr "32" },
        { code := .pstr "976", name := "Mayotte", region_code := .pstr "06" }]
        : List DepartmentRow).length :=
  ⟨by decide, C1_resolver_preserves_rows _ _ (by decide)⟩

/-- C5 counterexample: the source normalizes only `code_dep`, not the join
keys, so a department whose `region_code` is `"1"` does not resolve against
a region whose `code_reg` is `"01"`: its region fields come back null,
contradicting the claimed zero-padding of both join keys. -/
theorem C5_counterexample :
    (merge_regions_and_departments
      [{ code := .pstr "01", name := "Nord" }]
      [{ code := .pstr "59", name := "NordDept", region_code := .pstr "1" }]).merged
      = [{ code_reg := none, name_reg := none, code_dep := "59", name_dep := "NordDept" }] := by
  decide

/-- C5 amended: in the Area Resolver only the department code column
`code_dep` is normalized; the join keys `region_code` and `code_reg` are
compared without normalization, so a department resolves exactly when some
region's raw `code_reg` equals its raw `region_code`, and a department
whose `region_code` differs from every `code_reg` (even only by leading
zeros) gets null region fields. -/
theorem C5_amended_raw_join_keys (regions : List RegionRow)
    (departments : List DepartmentRow) (d : DepartmentRow) (hd : d ∈ departments) :
    ((∀ r ∈ regions, r.code ≠ d.region_code) →
      ({ code_reg := none, name_reg := none, code_dep := zfill 2 (pyStr d.code),
         name_dep := d.name } : AreaRow)
        ∈ (merge_regions_and_departments regions departments).merged)
  ∧ (∀ r ∈ regions, r.code = d.region_code →
      ({ code_reg := some r.code, name_reg := some r.name,
         code_dep := zfill 2 (pyStr d.code), name_dep := d.name } : AreaRow)
        ∈ (merge_regions_and_departments regions departments).merged) := by
  constructor
  · intro hno
    refine List.mem_flatMap.mpr ⟨d, hd, ?_⟩
    rw [leftJoinDept_of_no_match regions d hno]
    exact List.mem_singleton.mpr rfl
  · intro r hr hcode
    exact List.mem_flatMap.mpr ⟨d, hd, leftJoinDept_of_match regions d r hr hcode⟩

/-- Witness for C5 amended: the department with `region_code` `"1"` gets
null region fields against the region coded `"01"`, and a department with
an exactly matching key resolves. -/
theorem C5_amended_raw_join_keys_witness :
    ({ code := .pstr "59", name := "NordDept", region_code := .pstr "1" }
        ∈ ([{ code := .pstr "59", name := "NordDept", region_code := .pstr "1" }]
            : List DepartmentRow))
  ∧ (({ code_reg := none, name_reg := none, code_dep := "59", name_dep := "NordDept" } : AreaRow)
      ∈ (merge_regions_and_departments [{ code := .pstr "01", name := "Nord" }]
          [{ code := .pstr "59", name := "NordDept", region_code := .pstr "1" }]).merged) :=
  ⟨by decide,
    (C5_amended_raw_join_keys [{ code := .pstr "01", name := "Nord" }]
      [{ code := .pstr "59", name := "NordDept", region_code := .pstr "1" }]
      { code := .pstr "59", name := "NordDept", region_code := .pstr "1" }
      (by decide)).1 (by decide)⟩

/-- C6 counterexample: an unmatched department row does not keep its
`code_dep` verbatim — the code `"1"` is rewritten to `"01"` by the
`zfill(2)` normalization even though its region fields are null. -/
theorem C6_counterexample :
    (merge_regions_and_departments ([] : List RegionRow)
      [{ code := .pstr "1", name := "Ain", region_code := .pstr "84" }]).merged
      = [{ code_reg := none, name_reg := none, code_dep := "01", name_dep := "Ain" }]
  ∧ "01" ≠ "1" := by
  constructor
  · decide
  · decide

/-- C6 amended: the resolver's output has exactly the four columns
`code_reg`, `name_reg`, `code_dep`, `name_dep`, and every department row
whose `region_code` matches no region keeps its `name_dep` and the
normalized (string-cast, zero-filled to width two) form of its `code_dep`,
while its `code_reg` and `name_reg` are null. -/
theorem C6_amended_columns_and_unmatched :
    area_selected_columns = ["code_reg", "name_reg", "code_dep", "name_dep"]
  ∧ ∀ (regions : List RegionRow) (departments : List DepartmentRow)
      (d : DepartmentRow), d ∈ departments →
      (∀ r ∈ regions, r.code ≠ d.region_code) →
      ({ code_reg := none, name_reg := none, code_dep := zfill 2 (pyStr d.code),
         name_dep := d.name } : AreaRow)
        ∈ (merge_regions_and_departments regions departments).merged := by
  refine ⟨rfl, ?_⟩
  intro regions departments d hd hno
  refine List.mem_flatMap.mpr ⟨d, hd, ?_⟩
  rw [leftJoinDept_of_no_match regions d hno]
  exact List.mem_singleton.mpr rfl

/-- Witness for C6 amended at a one-department table with no matching
region. -/
theorem C6_amended_columns_and_unmatched_witness :
    ({ code := .pstr "973", name := "Guyane", region_code := .pstr "03" }
        ∈ ([{ code := .pstr "973", name := "Guyane", region_code := .pstr "03" }]
            : List DepartmentRow))
  ∧ (({ code_reg := none, name_reg := none, code_dep := "973", name_dep := "Guyane" } : AreaRow)
      ∈ (merge_regions_and_departments [{ code := .pstr "11", name := "IdF" }]
          [{ code := .pstr "973", name := "Guyane", region_code := .pstr "03" }]).merged) :=
  ⟨by decide,
    C6_amended_columns_and_unmatched.2 [{ code := .pstr "11", name := "IdF" }]
      [{ code := .pstr "973", name := "Guyane", region_code := .pstr "03" }]
      { code := .pstr "973", name := "Guyane", region_code := .pstr "03" }
      (by decide) (by decide)⟩

/-- C7 counterexample: `merge_referendum_and_areas` assigns into its
argument DataFrames, so it is not a pure function of its inputs — after the
call a ballot table whose department code was `"1"` holds `"01"` instead.
-/
theorem C7_counterexample :
    (merge_referendum_and_areas
      [{ dep_code := .pstr "1", registered := 10, abstentions := 1, null_votes := 1,
         choice_a := 4, choice_b := 4 }] []).referendum_after
      ≠ [{ dep_code := .pstr "1", registered := 10, abstentions := 1, null_votes := 1,
           choice_a := 4, choice_b := 4 }] := by
  decide

/-- C7 amended: the Area Resolver leaves its two inputs unchanged, but the
Ballot Joiner mutates both of its inputs in place: after the call each
input's department-code column holds its string-cast, zero-filled form
(all other fields unchanged), and the inputs are returned unchanged
exactly when their code columns were already in normalized form. -/
theorem C7_amended_joiner_mutates (referendum : List BallotRow) (areas : List AreaRow) :
    (merge_referendum_and_areas referendum areas).referendum_after
        = referendum.map normalizeBallot
  ∧ (merge_referendum_and_areas referendum areas).areas_after
        = areas.map normalizeArea
  ∧ (∀ (regions : List RegionRow) (departments : List DepartmentRow),
      (merge_regions_and_departments regions departments).regions_after = regions
      ∧ (merge_regions_and_departments regions departments).departments_after = departments)
  ∧ ((∀ b ∈ referendum, normalizeBallot b = b) → (∀ a ∈ areas, normalizeArea a = a) →
      (merge_referendum_and_areas referendum areas).referendum_after = referendum
      ∧ (merge_referendum_and_areas referendum areas).areas_after = areas) := by
  refine ⟨rfl, rfl, fun _ _ => ⟨rfl, rfl⟩, fun hb ha => ⟨?_, ?_⟩⟩
  · show referendum.map normalizeBallot = referendum
    calc referendum.map normalizeBallot = referendum.map id := List.map_congr_left hb
    _ = referendum := List.map_id referendum
  · show areas.map normalizeArea = areas
    calc areas.map normalizeArea = areas.map id := List.map_congr_left ha
    _ = areas := List.map_id areas

/-- Witness for C7 amended: inputs whose code columns are already
normalized width-two strings come back unchanged. -/
theorem C7_amended_joiner_mutates_witness :
    (∀ b ∈ ([{ dep_code := .pstr "01", registered := 10, abstentions := 1,
               null_votes := 1, choice_a := 4, choice_b := 4 }] : List BallotRow),
        normalizeBallot b = b)
  ∧ (∀ a ∈ ([{ code_reg := some (.pstr "84"), name_reg := some "ARA",
               code_dep := "01", name_dep := "Ain" }] : List AreaRow),
        normalizeArea a = a)
  ∧ ((merge_referendum_and_areas
        [{ dep_code := .pstr "01", registered := 10, abstentions := 1, null_votes := 1,
           choice_a := 4, choice_b := 4 }]
        [{ code_reg := some (.pstr "84"), name_reg := some "ARA",
           code_dep := "01", name_dep := "Ain" }]).referendum_after
      = [{ dep_code := .pstr "01", registered := 10, abstentions := 1, null_votes := 1,
           choice_a := 4, choice_b := 4 }]
    ∧ (merge_referendum_and_areas
        [{ dep_code := .pstr "01", registered := 10, abstentions := 1, null_votes := 1,
           choice_a := 4, choice_b := 4 }]
        [{ code_reg := some (.pstr "84"), name_reg := some "ARA",
           code_dep := "01", name_dep := "Ain" }]).areas_after
      = [{ code_reg := some (.pstr "84"), name_reg := some "ARA",
           code_dep := "01", name_dep := "Ain" }]) :=
  ⟨by decide, by decide,
    (C7_amended_joiner_mutates
      [{ dep_code := .pstr "01", registered := 10, abstentions := 1, null_votes := 1,
         choice_a := 4, choice_b := 4 }]
      [{ code_reg := some (.pstr "84"), name_reg := some "ARA",
         code_dep := "01", name_dep := "Ain" }]).2.2.2 (by decide) (by decide)⟩

/-- C8: invoking the Area Resolver a second time on the post-call state of
its inputs yields the same output table as the first invocation, and the
first invocation left its inputs untouched — no hidden state, no
dependence on prior calls. -/
theorem C8_resolver_idempotent (regions : List RegionRow)
    (departments : List DepartmentRow) :
    (merge_regions_and_departments
        (merge_regions_and_departments regions departments).regions_after
        (merge_regions_and_departments regions departments).departments_after).merged
      = (merge_regions_and_departments regions departments).merged
  ∧ (merge_regions_and_departments regions departments).regions_after = regions
  ∧ (merge_regions_and_departments regions departments).departments_after = departments :=
  ⟨rfl, rfl, rfl⟩

/-- C9: every `code_dep` in the resolver's output is the zero-filled
string form of the source cell: a string code of width two or more is
returned unchanged, and a single-digit numeric code (a leading zero lost
to numeric storage) is restored to width two. -/
theorem C9_code_dep_width (regions : List RegionRow)
    (departments : List DepartmentRow) (row : AreaRow)
    (h : row ∈ (merge_regions_and_departments regions departments).merged) :
    ∃ d ∈ departments, row.code_dep = zfill 2 (pyStr d.code)
      ∧ (∀ s, d.code = .pstr s → 2 ≤ s.length → row.code_dep = s)
      ∧ (∀ n, d.code = .pint n → n < 10 → row.code_dep.length = 2) := by
  obtain ⟨d, hd, hrow⟩ := mem_resolver_merged regions departments row h
  obtain ⟨hcode, -⟩ := mem_leftJoinDept_fields regions d row hrow
  refine ⟨d, hd, hcode, ?_, ?_⟩
  · intro s hs hlen
    rw [hcode, hs]
    show zfill 2 s = s
    unfold zfill
    rw [if_pos hlen]
  · intro n hn hlt
    rw [hcode, hn]
    show (zfill 2 (pyStr (.pint n))).length = 2
    interval_cases n <;> decide

/-- Witness for C9 at a department table holding one numeric code `1` and
one string code `"971"`. -/
theorem C9_code_dep_width_witness :
    ({ code_reg := none, name_reg := none, code_dep := "01", name_dep := "Ain" }
        ∈ (merge_regions_and_departments ([] : List RegionRow)
            [{ code := .pint 1, name := "Ain", region_code := .pstr "84" },
             { code := .pstr "971", name := "Guadeloupe", region_code := .pstr "01" }]).merged)
  ∧ ∃ d ∈ ([{ code := .pint 1, name := "Ain", region_code := .pstr "84" },
            { code := .pstr "971", name := "Guadeloupe", region_code := .pstr "01" }]
            : List DepartmentRow),
      ({ code_reg := none, name_reg := none, code_dep := "01", name_dep := "Ain" }
          : AreaRow).code_dep = zfill 2 (pyStr d.code)
      ∧ (∀ s, d.code = .pstr s → 2 ≤ s.length →
          ({ code_reg := none, name_reg := none, code_dep := "01", name_dep := "Ain" }
            : AreaRow).code_dep = s)
      ∧ (∀ n, d.code = .pint n → n < 10 →
          ({ code_reg := none, name_reg := none, code_dep := "01", name_dep := "Ain" }
            : AreaRow).code_dep.length = 2) :=
  ⟨by decide,
    C9_code_dep_width ([] : List RegionRow)
      [{ code := .pint 1, name := "Ain", region_code := .pstr "84" },
       { code := .pstr "971", name := "Guadeloupe", region_code := .pstr "01" }]
      { code_reg := none, name_reg := none, code_dep := "01", name_dep := "Ain" }
      (by decide)⟩

/-- C2 counterexample: with a duplicated `code_dep` in the area table, the
inner join duplicates a ballot row, so the output has more rows than the
ballot table — the claimed bound
`min(ballot rows, matchable department rows)` fails. -/
theorem C2_counterexample :
    (merge_referendum_and_areas
      [{ dep_code := .pstr "01", registered := 10, abstentions := 1, null_votes := 1,
         choice_a := 4, choice_b := 4 }]
      [{ code_reg := some (.pstr "84"), name_reg := some "ARA",
         code_dep := "01", name_dep := "Ain" },
       { code_reg := some (.pstr "84"), name_reg := some "ARA",
         code_dep := "01", name_dep := "AinBis" }]).merged.length = 2
  ∧ ¬((merge_referendum_and_areas
      [{ dep_code := .pstr "01", registered := 10, abstentions := 1, null_votes := 1,
         choice_a := 4, choice_b := 4 }]
      [{ code_reg := some (.pstr "84"), name_reg := some "ARA",
         code_dep := "01", name_dep := "Ain" },
       { code_reg := some (.pstr "84"), name_reg := some "ARA",
         code_dep := "01", name_dep := "AinBis" }]).merged.length
      ≤ ([{ dep_code := .pstr "01", registered := 10, abstentions := 1, null_votes := 1,
            choice_a := 4, choice_b := 4 }] : List BallotRow).length) := by
  constructor
  · decide
  · decide

/-- C2 amended: when the normalized `code_dep` values of the area table
are pairwise distinct (the AreaRecord invariant), the Ballot Joiner
returns at most `min(ballot rows, matchable ballot rows)` rows, where a
matchable ballot row is one whose normalized department code occurs in
the area table; unconditionally, every returned row has both region
fields populated, and every returned row's department code occurs in the
area table (ballot rows with no match are dropped). -/
theorem C2_amended_joiner (referendum : List BallotRow) (areas : List AreaRow) :
    (((areas.map normalizeArea).map AreaRow.code_dep).Nodup →
      (merge_referendum_and_areas referendum areas).merged.length
        ≤ min referendum.length
            (matchableBallots (referendum.map normalizeBallot)
              (areas.map normalizeArea)).length)
  ∧ (∀ m ∈ (merge_referendum_and_areas referendum areas).merged,
      m.area.code_reg.isSome ∧ m.area.name_reg.isSome)
  ∧ (∀ m ∈ (merge_referendum_and_areas referendum areas).merged,
      ∃ a ∈ areas, zfill 2 a.code_dep = pyStr m.ballot.dep_code) := by
  have hmerged : (merge_referendum_and_areas referendum areas).merged
      = ((referendum.map normalizeBallot).flatMap (fun b =>
          ((areas.map normalizeArea).filter
            (fun a => decide (a.code_dep = pyStr b.dep_code))).map
            (fun a => ({ ballot := b, area := a } : MergedRow)))).filter dropnaKeep := rfl
  refine ⟨fun h1 => ?_, ?_, ?_⟩
  · rw [hmerged]
    have hfil := List.length_filter_le dropnaKeep
      ((referendum.map normalizeBallot).flatMap (fun b =>
        ((areas.map normalizeArea).filter
          (fun a => decide (a.code_dep = pyStr b.dep_code))).map
          (fun a => ({ ballot := b, area := a } : MergedRow))))
    have hj := joiner_joined_length_le (referendum.map normalizeBallot)
      (areas.map normalizeArea) h1
    have hmb : (matchableBallots (referendum.map normalizeBallot)
        (areas.map normalizeArea)).length ≤ referendum.length := by
      have := List.length_filter_le
        (fun b => decide (pyStr b.dep_code ∈
          (areas.map normalizeArea).map (fun a => a.code_dep)))
        (referendum.map normalizeBallot)
      simpa [matchableBallots] using this
    exact le_min (le_trans hfil (le_trans hj hmb)) (le_trans hfil hj)
  · intro m hm
    rw [hmerged] at hm
    have hkeep := List.of_mem_filter hm
    simp only [dropnaKeep, Bool.and_eq_true] at hkeep
    exact ⟨hkeep.1, hkeep.2⟩
  · intro m hm
    rw [hmerged] at hm
    obtain ⟨b, _, hbm⟩ := List.mem_flatMap.mp (List.mem_of_mem_filter hm)
    obtain ⟨a', ha', heq⟩ := List.mem_map.mp hbm
    obtain ⟨ha'mem, ha'code⟩ := List.mem_filter.mp ha'
    obtain ⟨a, ha, hnorm⟩ := List.mem_map.mp ha'mem
    refine ⟨a, ha, ?_⟩
    have h1' : a'.code_dep = pyStr b.dep_code := by simpa using ha'code
    have h2' : zfill 2 a.code_dep = a'.code_dep := by rw [← hnorm]; rfl
    rw [h2', h1', ← heq]

/-- Witness for C2 amended: the spec's round-trip scenario — two regions,
three departments, five ballot rows of which four (two of them for the
same department, one written without its leading zero) match and one
(`"ZZ"`) does not; the joiner returns exactly four fully-populated rows,
reaching the bound `min 5 4`. -/
theorem C2_amended_joiner_witness :
    ((exAreas.map normalizeArea).map AreaRow.code_dep).Nodup
  ∧ ((merge_referendum_and_areas exBallots exAreas).merged.length
        ≤ min exBallots.length
            (matchableBallots (exBallots.map normalizeBallot)
              (exAreas.map normalizeArea)).length)
  ∧ (∀ m ∈ (merge_referendum_and_areas exBallots exAreas).merged,
      m.area.code_reg.isSome ∧ m.area.name_reg.isSome)
  ∧ (∀ m ∈ (merge_referendum_and_areas exBallots exAreas).merged,
      ∃ a ∈ exAreas, zfill 2 a.code_dep = pyStr m.ballot.dep_code)
  ∧ (merge_referendum_and_areas exBallots exAreas).merged.length = 4
  ∧ exBallots.length = 5
  ∧ (matchableBallots (exBallots.map normalizeBallot)
      (exAreas.map normalizeArea)).length = 4 :=
  ⟨by decide, (C2_amended_joiner exBallots exAreas).1 (by decide),
    (C2_amended_joiner exBallots exAreas).2.1,
    (C2_amended_joiner exBallots exAreas).2.2,
    by decide, by decide, by decide⟩

/-- C3: on a resolved-ballot table whose rows all carry non-null group
keys and in which a region code determines the region name, the Regional
Aggregator produces the fixed column layout, an output indexed by
pairwise-distinct `code_reg` values, and, for every output row, five
sums that each equal the exact sum of that field over all input rows
carrying that region code. -/
theorem C3_aggregator_additive (rows : List MergedRow)
    (hkeys : ∀ m ∈ rows, (keyOf m).isSome)
    (h11 : ∀ m1 ∈ rows, ∀ m2 ∈ rows,
      m1.area.code_reg = m2.area.code_reg → m1.area.name_reg = m2.area.name_reg) :
    result_columns = ["name_reg", "Registered", "Abstentions", "Null", "Choice A", "Choice B"]
  ∧ ((compute_referendum_result_by_regions rows).map ResultRow.code_reg).Nodup
  ∧ ∀ res ∈ compute_referendum_result_by_regions rows,
      res.registered = sumBy (rows.filter
        (fun m => decide (m.area.code_reg = some res.code_reg)))
        (fun m => m.ballot.registered)
    ∧ res.abstentions = sumBy (rows.filter
        (fun m => decide (m.area.code_reg = some res.code_reg)))
        (fun m => m.ballot.abstentions)
    ∧ res.null_votes = sumBy (rows.filter
        (fun m => decide (m.area.code_reg = some res.code_reg)))
        (fun m => m.ballot.null_votes)
    ∧ res.choice_a = sumBy (rows.filter
        (fun m => decide (m.area.code_reg = some res.code_reg)))
        (fun m => m.ballot.choice_a)
    ∧ res.choice_b = sumBy (rows.filter
        (fun m => decide (m.area.code_reg = some res.code_reg)))
        (fun m => m.ballot.choice_b) := by
  have hpair : ∀ m1 ∈ rows, ∀ m2 ∈ rows, ∀ c n1 n2,
      keyOf m1 = some (c, n1) → keyOf m2 = some (c, n2) → n1 = n2 := by
    intro m1 hm1 m2 hm2 c n1 n2 hk1 hk2
    obtain ⟨hc1, hn1⟩ := keyOf_fields m1 (c, n1) hk1
    obtain ⟨hc2, hn2⟩ := keyOf_fields m2 (c, n2) hk2
    have := h11 m1 hm1 m2 hm2 (hc1.trans hc2.symm)
    rw [hn1, hn2] at this
    exact Option.some.inj this
  have hfromkeys : ∀ k ∈ (rows.filterMap keyOf).dedup, ∃ m ∈ rows, keyOf m = some k :=
    fun k hk => List.mem_filterMap.mp (List.mem_dedup.mp hk)
  refine ⟨rfl, ?_, ?_⟩
  · show (((rows.filterMap keyOf).dedup.map _).map ResultRow.code_reg).Nodup
    rw [List.map_map]
    refine List.Nodup.map_on ?_ (List.nodup_dedup _)
    intro k1 hk1 k2 hk2 hfst
    have hfst' : k1.1 = k2.1 := hfst
    obtain ⟨m1, hm1, hkey1⟩ := hfromkeys k1 hk1
    obtain ⟨m2, hm2, hkey2⟩ := hfromkeys k2 hk2
    have hsnd : k1.2 = k2.2 :=
      hpair m1 hm1 m2 hm2 k1.1 k1.2 k2.2 hkey1 (by rw [hfst']; exact hkey2)
    exact Prod.ext hfst' hsnd
  · intro res hres
    obtain ⟨k, hk, hFk⟩ := List.mem_map.mp hres
    have hgroup : groupRows rows k
        = rows.filter (fun m => decide (m.area.code_reg = some k.1)) := by
      unfold groupRows
      refine List.filter_congr ?_
      intro m hm
      rw [decide_eq_decide]
      constructor
      · intro hkm
        exact (keyOf_fields m k hkm).1
      · intro hcm
        obtain ⟨p, hp⟩ := Option.isSome_iff_exists.mp (hkeys m hm)
        obtain ⟨hc, hn⟩ := keyOf_fields m p hp
        have hp1 : p.1 = k.1 := by
          rw [hc] at hcm
          exact Option.some.inj hcm
        obtain ⟨m0, hm0, hkey0⟩ := hfromkeys k hk
        have hsnd : p.2 = k.2 :=
          hpair m hm m0 hm0 k.1 p.2 k.2 (by rw [← hp1]; exact hp) hkey0
        rw [hp]
        rw [show p = k from Prod.ext hp1 hsnd]
    subst hFk
    refine ⟨?_, ?_, ?_, ?_, ?_⟩ <;>
      · show sumBy (groupRows rows k) _ = _
        rw [hgroup]

/-- Witness for C3 on the resolved table of the synthetic pipeline (four
rows over two regions, with one department appearing twice). -/
theorem C3_aggregator_additive_witness :
    (∀ m ∈ exResolved, (keyOf m).isSome)
  ∧ (∀ m1 ∈ exResolved, ∀ m2 ∈ exResolved,
      m1.area.code_reg = m2.area.code_reg → m1.area.name_reg = m2.area.name_reg)
  ∧ (result_columns = ["name_reg", "Registered", "Abstentions", "Null", "Choice A", "Choice B"]
    ∧ ((compute_referendum_result_by_regions exResolved).map ResultRow.code_reg).Nodup
    ∧ ∀ res ∈ compute_referendum_result_by_regions exResolved,
        res.registered = sumBy (exResolved.filter
          (fun m => decide (m.area.code_reg = some res.code_reg)))
          (fun m => m.ballot.registered)
      ∧ res.abstentions = sumBy (exResolved.filter
          (fun m => decide (m.area.code_reg = some res.code_reg)))
          (fun m => m.ballot.abstentions)
      ∧ res.null_votes = sumBy (exResolved.filter
          (fun m => decide (m.area.code_reg = some res.code_reg)))
          (fun m => m.ballot.null_votes)
      ∧ res.choice_a = sumBy (exResolved.filter
          (fun m => decide (m.area.code_reg = some res.code_reg)))
          (fun m => m.ballot.choice_a)
      ∧ res.choice_b = sumBy (exResolved.filter
          (fun m => decide (m.area.code_reg = some res.code_reg)))
          (fun m => m.ballot.choice_b)) :=
  ⟨by decide, by decide, C3_aggregator_additive exResolved (by decide) (by decide)⟩

/-- C4: every row of the renderer's joined table whose two choice sums
are present and not both zero has
`ratio = choice_a / (choice_a + choice_b)`, a value in `[0, 1]`; in
particular at `choice_a = 100`, `choice_b = 300` the ratio is within
`1e-9` of `0.25` (it is exactly `1/4`). -/
theorem C4_ratio_value (geo : List GeoRow) (results : List ResultRow)
    (row : PlotRow) (a b : Nat) (hrow : row ∈ plot_referendum_map geo results)
    (ha : row.choice_a = some a) (hb : row.choice_b = some b)
    (hab : ¬(a = 0 ∧ b = 0)) :
    row.ratio = some ((a : ℚ) / ((a : ℚ) + (b : ℚ)))
  ∧ 0 ≤ (a : ℚ) / ((a : ℚ) + (b : ℚ))
  ∧ (a : ℚ) / ((a : ℚ) + (b : ℚ)) ≤ 1
  ∧ (a = 100 → b = 300 →
      |(a : ℚ) / ((a : ℚ) + (b : ℚ)) - 1/4| ≤ 1/1000000000) := by
  have hsum : (0 : ℚ) < (a : ℚ) + (b : ℚ) := by
    have h0 : 0 < a + b := by omega
    exact_mod_cast h0
  obtain ⟨g, hg, hcase⟩ := mem_plot_cases geo results row hrow
  have hratio : row.ratio = some ((a : ℚ) / ((a : ℚ) + (b : ℚ))) := by
    rcases hcase with hnone | ⟨r, hr, hsome⟩
    · subst hnone
      simp [plotRowOf] at ha
    · subst hsome
      simp only [plotRowOf] at ha hb ⊢
      obtain rfl := Option.some.inj ha
      obtain rfl := Option.some.inj hb
      show ratioOpt (some r.choice_a) (some r.choice_b) = _
      have hne : ¬(r.choice_a + r.choice_b = 0) := fun h0 => hab ⟨by omega, by omega⟩
      simp only [ratioOpt, if_neg hne]
  refine ⟨hratio, ?_, ?_, ?_⟩
  · exact div_nonneg (Nat.cast_nonneg a) (le_of_lt hsum)
  · exact (div_le_one hsum).mpr (le_add_of_nonneg_right (Nat.cast_nonneg b))
  · intro h100 h300
    subst h100
    subst h300
    norm_num

/-- Witness for C4 at a one-geometry, one-result instance with
`choice_a = 100`, `choice_b = 300`. -/
theorem C4_ratio_value_witness :
    (plotRowOf { nom := "ARA", geometry := "poly" }
        (some { code_reg := .pstr "84", name_reg := "ARA", registered := 1000,
                abstentions := 10, null_votes := 5, choice_a := 100, choice_b := 300 })
      ∈ plot_referendum_map exGeoC4 exResultsC4)
  ∧ ((plotRowOf { nom := "ARA", geometry := "poly" }
        (some { code_reg := .pstr "84", name_reg := "ARA", registered := 1000,
                abstentions := 10, null_votes := 5, choice_a := 100, choice_b := 300 })).ratio
        = some ((100 : ℚ) / ((100 : ℚ) + (300 : ℚ)))
    ∧ 0 ≤ (100 : ℚ) / ((100 : ℚ) + (300 : ℚ))
    ∧ (100 : ℚ) / ((100 : ℚ) + (300 : ℚ)) ≤ 1
    ∧ ((100 : Nat) = 100 → (300 : Nat) = 300 →
        |(100 : ℚ) / ((100 : ℚ) + (300 : ℚ)) - 1/4| ≤ 1/1000000000)) :=
  ⟨List.mem_singleton.mpr rfl,
    C4_ratio_value exGeoC4 exResultsC4
      (plotRowOf { nom := "ARA", geometry := "poly" }
        (some { code_reg := .pstr "84", name_reg := "ARA", registered := 1000,
                abstentions := 10, null_votes := 5, choice_a := 100, choice_b := 300 }))
      100 300 (List.mem_singleton.mpr rfl) rfl rfl (by decide)⟩

/-- C10 counterexample: when two result rows share a `name_reg`, the
renderer's left join duplicates the matching geometry row, so the
returned table does not contain one row per input geometry. -/
theorem C10_counterexample :
    (plot_referendum_map [{ nom := "X", geometry := "poly" }]
      [{ code_reg := .pstr "84", name_reg := "X", registered := 1, abstentions := 1,
         null_votes := 1, choice_a := 1, choice_b := 1 },
       { code_reg := .pstr "32", name_reg := "X", registered := 2, abstentions := 2,
         null_votes := 2, choice_a := 2, choice_b := 2 }]).length = 2
  ∧ ([{ nom := "X", geometry := "poly" }] : List GeoRow).length = 1 := by
  constructor
  · decide
  · decide

/-- C10 amended: the renderer's ratio computation is total — a geometry
row matching no result keeps a row with NaN (`none`) ratio, and a row
whose two choice sums are both zero gets NaN rather than an error — and
when the result table's `name_reg` values are pairwise distinct the
returned table has exactly one row per input geometry (a duplicated name
duplicates its geometry row instead). -/
theorem C10_renderer_total (geo : List GeoRow) (results : List ResultRow) :
    ((results.map ResultRow.name_reg).Nodup →
      (plot_referendum_map geo results).length = geo.length)
  ∧ (∀ row ∈ plot_referendum_map geo results,
      (row.choice_a = none → row.ratio = none)
      ∧ (row.choice_a = some 0 → row.choice_b = some 0 → row.ratio = none))
  ∧ (∀ g ∈ geo, (∀ res ∈ results, res.name_reg ≠ g.nom) →
      plotRowOf g none ∈ plot_referendum_map geo results) := by
  refine ⟨fun hn => ?_, ?_, ?_⟩
  · unfold plot_referendum_map
    exact length_flatMap_of_one geo (leftJoinGeo results)
      (fun g _ => plotJoin_length results g hn)
  · intro row hrow
    obtain ⟨g, hg, hcase⟩ := mem_plot_cases geo results row hrow
    rcases hcase with hnone | ⟨r, hr, hsome⟩
    · subst hnone
      exact ⟨fun _ => rfl, fun h0 _ => by simp [plotRowOf] at h0⟩
    · subst hsome
      constructor
      · intro h0
        simp [plotRowOf] at h0
      · intro h0 hb0
        simp only [plotRowOf] at h0 hb0 ⊢
        have ha0 : r.choice_a = 0 := Option.some.inj h0
        have hb0' : r.choice_b = 0 := Option.some.inj hb0
        show ratioOpt (some r.choice_a) (some r.choice_b) = none
        rw [ha0, hb0']
        simp [ratioOpt]
  · intro g hg hnomatch
    refine List.mem_flatMap.mpr ⟨g, hg, ?_⟩
    have hnil : results.filter (fun r => decide (r.name_reg = g.nom)) = [] :=
      List.filter_eq_nil_iff.mpr (fun r hr => by simpa using hnomatch r hr)
    unfold leftJoinGeo
    split
    · exact List.mem_singleton.mpr rfl
    · rename_i heq
      exact absurd hnil heq

/-- Witness for C10 on the synthetic pipeline: two geometries, one
matched and one (`"Corse"`) unmatched, against the aggregated results
(whose names are distinct). -/
theorem C10_renderer_total_witness :
    ((exResults.map ResultRow.name_reg).Nodup)
  ∧ ((plot_referendum_map exGeo exResults).length = exGeo.length)
  ∧ (∀ row ∈ plot_referendum_map exGeo exResults,
      (row.choice_a = none → row.ratio = none)
      ∧ (row.choice_a = some 0 → row.choice_b = some 0 → row.ratio = none))
  ∧ (∀ g ∈ exGeo, (∀ res ∈ exResults, res.name_reg ≠ g.nom) →
      plotRowOf g none ∈ plot_referendum_map exGeo exResults) :=
  ⟨by decide, (C10_renderer_total exGeo exResults).1 (by decide),
    (C10_renderer_total exGeo exResults).2.1,
    (C10_renderer_total exGeo exResults).2.2⟩

end PandasQuestions
